import Mathlib

/-!
# Admission middleware of the administrative API

A shallow embedding of `authority/admin/api/middleware.go`: the four guards
`requireAPIEnabled`, `extractAuthorizeTokenAdmin`, `loadProvisionerByName` and
`checkAction`.

A Go `http.HandlerFunc` writes to its `ResponseWriter` and calls collaborators.
Here a handler is a function from the request to the ordered list of observable
events it produces: collaborator calls, rendered error responses, and the
terminal handler being reached. Collaborators are fields of the handler, each a
function from its arguments to its outcome.
-/

namespace AdminApi

/-! ## Error model -/

/-- Problem categories of `admin.Error` that the middleware selects. -/
inductive ProblemType
  | ErrorNotImplementedType
  | ErrorUnauthorizedType
  | ErrorServerInternalType
  deriving DecidableEq, Repr

/-- A Go `error` value as seen by the middleware: either an error of a
collaborator that is not an `admin.Error`, an `admin.Error` with a category and
a message, or an `admin.Error` that wraps a cause. -/
inductive GoError
  | foreign (msg : String)
  | adminError (typ : ProblemType) (msg : String)
  | wrapped (typ : ProblemType) (msg : String) (cause : GoError)
  deriving DecidableEq, Repr

/-- Category of an error, when it is an `admin.Error`. -/
def GoError.category : GoError → Option ProblemType
  | .foreign _ => none
  | .adminError typ _ => some typ
  | .wrapped typ _ _ => some typ

/-- Message of an error. -/
def GoError.message : GoError → String
  | .foreign msg => msg
  | .adminError _ msg => msg
  | .wrapped _ msg _ => msg

/-- Cause wrapped by an error, if any. -/
def GoError.cause : GoError → Option GoError
  | .wrapped _ _ c => some c
  | _ => none

/-- Expansion of the `%s` verbs of a format over its arguments, on characters. -/
def sprintfChars : List Char → List String → List Char
  | [], _ => []
  | '%' :: 's' :: rest, a :: args => a.data ++ sprintfChars rest args
  | c :: rest, args => c :: sprintfChars rest args

/-- Go `fmt.Sprintf` restricted to the `%s` verb with string arguments, the only
verb the middleware uses. -/
def Sprintf (format : String) (args : List String) : String :=
  ⟨sprintfChars format.data args⟩

/-- Modelled from the spec: `admin.NewError` (authority/admin/errors.go) is not
part of the sources at hand. Every rejection is a structured error made of a
category and a message; `NewError` builds it from the two arguments the guard
passes. -/
def NewError (typ : ProblemType) (msg : String) : GoError :=
  .adminError typ msg

/-- Modelled from the spec: `admin.WrapErrorISE` (authority/admin/errors.go) is
not part of the sources at hand. A lookup failure is wrapped as an
internal-error category with the formatted context as message, and the
underlying cause is preserved. -/
def WrapErrorISE (err : GoError) (format : String) (args : List String) : GoError :=
  .wrapped .ErrorServerInternalType (Sprintf format args) err

/-! ## Identities, provisioners and the request context -/

/-- The authenticated caller, `*linkedca.Admin`. -/
structure Admin where
  Id : String
  Subject : String
  deriving DecidableEq, Repr

/-- The persisted administrative record of a provisioner,
`*linkedca.Provisioner`. -/
structure Provisioner where
  Id : String
  Name : String
  deriving DecidableEq, Repr

/-- A `provisioner.Interface` value as returned by the name lookup; the
middleware only reads `GetID()`. -/
structure ProvisionerInterface where
  GetID : String
  GetName : String
  deriving DecidableEq, Repr

/-- Keys under which values are stored in a request context. -/
inductive CtxKey
  | adminContextKey
  | provisionerContextKey
  | RouteCtxKey
  | other (name : String)
  deriving DecidableEq, Repr

/-- Values stored in a request context. -/
inductive CtxValue
  | admin (adm : Admin)
  | provisioner (prov : Provisioner)
  | routeContext (URLParams : List (String × String))
  | other (v : String)
  deriving DecidableEq, Repr

/-- A Go `context.Context`: the chain of `WithValue` bindings, innermost
first. -/
abbrev Context := List (CtxKey × CtxValue)

/-- Go `context.WithValue`. -/
def WithValue (ctx : Context) (key : CtxKey) (val : CtxValue) : Context :=
  (key, val) :: ctx

/-- Go `ctx.Value(key)`: the innermost binding of the key. -/
def Value (ctx : Context) (key : CtxKey) : Option CtxValue :=
  ctx.lookup key

/-- The function `linkedca.NewContextWithAdmin`. -/
def NewContextWithAdmin (ctx : Context) (adm : Admin) : Context :=
  WithValue ctx .adminContextKey (.admin adm)

/-- The function `linkedca.AdminFromContext`. -/
def AdminFromContext (ctx : Context) : Option Admin :=
  match Value ctx .adminContextKey with
  | some (.admin adm) => some adm
  | _ => none

/-- The function `linkedca.NewContextWithProvisioner`. -/
def NewContextWithProvisioner (ctx : Context) (prov : Provisioner) : Context :=
  WithValue ctx .provisionerContextKey (.provisioner prov)

/-- The function `linkedca.ProvisionerFromContext`. -/
def ProvisionerFromContext (ctx : Context) : Option Provisioner :=
  match Value ctx .provisionerContextKey with
  | some (.provisioner prov) => some prov
  | _ => none

/-! ## Requests -/

/-- A Go `http.Header`: canonical header names mapped to their values. -/
abbrev Header := List (String × List String)

/-- Go `Header.Get`: the first value of the header, or the empty string when the
header is absent or has no value. The key the middleware passes,
`Authorization`, is already in canonical form. -/
def HeaderGet (h : Header) (key : String) : String :=
  match h.lookup key with
  | some (v :: _) => v
  | _ => ""

/-- The parts of `*http.Request` the middleware can observe; `ctx` is what
`r.Context()` returns. -/
structure Request where
  Method : String
  Path : String
  Header : Header
  ctx : Context
  deriving DecidableEq, Repr

/-- Go `r.WithContext(ctx)`: the same request with its context replaced. -/
def Request.WithContext (r : Request) (ctx : AdminApi.Context) : Request :=
  ⟨r.Method, r.Path, r.Header, ctx⟩

/-- The function `chi.URLParam`: the value of the last URL parameter of that
name in the routing context of the request, the empty string when there is
none. -/
def URLParam (r : Request) (key : String) : String :=
  match Value r.ctx .RouteCtxKey with
  | some (.routeContext params) => (params.reverse.lookup key).getD ""
  | _ => ""

/-! ## Collaborators and events -/

/-- Concrete type of the value bound to the `admin.DB` interface. -/
inductive DBType
  | nosqlDB
  | otherDB (typeName : String)
  deriving DecidableEq, Repr

/-- The Authority facade, `h.auth`. -/
structure Authority where
  IsAdminAPIEnabled : Bool
  AuthorizeAdminToken : Request → String → Except GoError Admin
  LoadProvisionerByName : String → Except GoError ProvisionerInterface

/-- The Admin Store facade, `h.adminDB`. -/
structure AdminDB where
  dynType : DBType
  GetProvisioner : Context → String → Except GoError Provisioner

/-- The receiver of the middleware methods. -/
structure Handler where
  auth : Authority
  adminDB : AdminDB

/-- What a handler does, in order. -/
inductive Event
  | callIsAdminAPIEnabled
  | callAuthorizeAdminToken (r : Request) (tok : String)
  | callLoadProvisionerByName (name : String)
  | callGetProvisioner (ctx : Context) (id : String)
  | renderError (err : GoError)
  | served (r : Request)
  deriving DecidableEq, Repr

/-- A Go `http.HandlerFunc`. -/
abbrev HandlerFunc := Request → List Event

/-- Go type assertion `_, ok := db.(*nosql.DB)`. -/
def isNosqlDB (db : AdminDB) : Bool :=
  db.dynType == DBType.nosqlDB

/-! ## The guards -/

/-- Guard `requireAPIEnabled`. -/
def requireAPIEnabled (h : Handler) (next : HandlerFunc) : HandlerFunc := fun r =>
  Event.callIsAdminAPIEnabled ::
    if !h.auth.IsAdminAPIEnabled then
      [Event.renderError (NewError .ErrorNotImplementedType
        "administration API not enabled")]
    else
      next r

/-- Guard `extractAuthorizeTokenAdmin`. -/
def extractAuthorizeTokenAdmin (h : Handler) (next : HandlerFunc) : HandlerFunc := fun r =>
  let tok := HeaderGet r.Header "Authorization"
  if tok = "" then
    [Event.renderError (NewError .ErrorUnauthorizedType
      "missing authorization header token")]
  else
    Event.callAuthorizeAdminToken r tok ::
      match h.auth.AuthorizeAdminToken r tok with
      | .error err => [Event.renderError err]
      | .ok adm =>
        let ctx := NewContextWithAdmin r.ctx adm
        next (r.WithContext ctx)

/-- Guard `loadProvisionerByName`. -/
def loadProvisionerByName (h : Handler) (next : HandlerFunc) : HandlerFunc := fun r =>
  let ctx := r.ctx
  let name := URLParam r "provisionerName"
  Event.callLoadProvisionerByName name ::
    match h.auth.LoadProvisionerByName name with
    | .error err =>
      [Event.renderError (WrapErrorISE err "error loading provisioner %s" [name])]
    | .ok p =>
      Event.callGetProvisioner ctx p.GetID ::
        match h.adminDB.GetProvisioner ctx p.GetID with
        | .error err =>
          [Event.renderError (WrapErrorISE err "error retrieving provisioner %s" [name])]
        | .ok prov =>
          let ctx := NewContextWithProvisioner ctx prov
          next (r.WithContext ctx)

/-- Guard `checkAction`. -/
def checkAction (h : Handler) (next : HandlerFunc) (supportedInStandalone : Bool) :
    HandlerFunc := fun r =>
  -- temporarily only support the admin nosql DB
  if !isNosqlDB h.adminDB then
    [Event.renderError (NewError .ErrorNotImplementedType "operation not supported")]
  -- actions allowed in standalone mode are always supported
  else if supportedInStandalone then
    next r
  -- not supported in standalone mode and a nosql.DB backend
  else if isNosqlDB h.adminDB then
    [Event.renderError (NewError .ErrorNotImplementedType
      "operation not supported in standalone mode")]
  -- continue to next http handler
  else
    next r

/-! ## Observations on event lists -/

/-- Error responses rendered, in order. -/
def rendered (t : List Event) : List GoError :=
  t.filterMap fun e => match e with
    | .renderError err => some err
    | _ => none

/-- Requests that reached the terminal handler, in order. -/
def servedRequests (t : List Event) : List Request :=
  t.filterMap fun e => match e with
    | .served r => some r
    | _ => none

/-- Tokens passed to `AuthorizeAdminToken`, in order. -/
def authorizeCalls (t : List Event) : List (Request × String) :=
  t.filterMap fun e => match e with
    | .callAuthorizeAdminToken r tok => some (r, tok)
    | _ => none

/-- Names passed to `LoadProvisionerByName`, in order. -/
def loadCalls (t : List Event) : List String :=
  t.filterMap fun e => match e with
    | .callLoadProvisionerByName name => some name
    | _ => none

/-- Arguments passed to `GetProvisioner`, in order. -/
def getCalls (t : List Event) : List (Context × String) :=
  t.filterMap fun e => match e with
    | .callGetProvisioner ctx id => some (ctx, id)
    | _ => none

/-- The terminal business handler, recording the request it is handed. -/
def terminal : HandlerFunc := fun r => [Event.served r]

/-- Guard `checkAction` with its last statement, the pass-through after the
second backend check, made a parameter of its own. -/
def checkActionTrailing (h : Handler) (next trailing : HandlerFunc)
    (supportedInStandalone : Bool) : HandlerFunc := fun r =>
  if !isNosqlDB h.adminDB then
    [Event.renderError (NewError .ErrorNotImplementedType "operation not supported")]
  else if supportedInStandalone then
    next r
  else if isNosqlDB h.adminDB then
    [Event.renderError (NewError .ErrorNotImplementedType
      "operation not supported in standalone mode")]
  else
    trailing r

/-- A guard that on this request first makes collaborator calls, rendering
nothing, and then either renders one error whatever next is, or does what next
does on one request. -/
def rejectsOrContinues (g : HandlerFunc → HandlerFunc) (r : Request) : Prop :=
  ∃ calls, rendered calls = [] ∧ servedRequests calls = [] ∧
    ((∃ e, ∀ next, g next r = calls ++ [Event.renderError e]) ∨
     (∃ r2, ∀ next, g next r = calls ++ next r2))

/-- Events of a rejection: one error rendered, terminal handler not reached. -/
def rejected (t : List Event) : Prop :=
  (rendered t).length = 1 ∧ servedRequests t = []

/-- Events of a continuation: no error rendered, terminal handler reached
once. -/
def continued (t : List Event) : Prop :=
  rendered t = [] ∧ (servedRequests t).length = 1

/-- Modelled from the spec: route registration is not part of the sources at
hand. The guards a provisioner route composes, in the fixed order feature gate,
authentication, resource resolution, capability gate, around a terminal
handler. -/
def admissionPipeline (h : Handler) (supportedInStandalone : Bool)
    (terminalHandler : HandlerFunc) : HandlerFunc :=
  requireAPIEnabled h
    (extractAuthorizeTokenAdmin h
      (loadProvisionerByName h
        (checkAction h terminalHandler supportedInStandalone)))

/-! ## Concrete values -/

/-- An administrator. -/
def adminAlice : Admin := ⟨"adm-1", "alice"⟩

/-- A provisioner record. -/
def provRecord : Provisioner := ⟨"prov-1", "acme"⟩

/-- An authority with the API enabled that accepts the token `good`. -/
def authOn : Authority :=
  ⟨true,
   fun _ tok => if tok = "good" then .ok adminAlice
     else .error (.adminError .ErrorUnauthorizedType "token rejected"),
   fun name => if name = "acme" then .ok ⟨"prov-1", "acme"⟩
     else .error (.foreign "provisioner not found")⟩

/-- An authority with the API disabled. -/
def authOff : Authority :=
  ⟨false, authOn.AuthorizeAdminToken, authOn.LoadProvisionerByName⟩

/-- A store of type `*nosql.DB` holding one provisioner. -/
def nosqlStore : AdminDB :=
  ⟨.nosqlDB, fun _ id => if id = "prov-1" then .ok provRecord
     else .error (.foreign "not found")⟩

/-- A store of another type. -/
def mockStore : AdminDB :=
  ⟨.otherDB "MockDB", nosqlStore.GetProvisioner⟩

/-- A handler over the nosql store. -/
def nosqlHandler : Handler := ⟨authOn, nosqlStore⟩

/-- A handler over a store of another type. -/
def mockHandler : Handler := ⟨authOn, mockStore⟩

/-- A handler whose authority has the API disabled. -/
def disabledHandler : Handler := ⟨authOff, nosqlStore⟩

/-- A request with a valid token for a provisioner the authority does not
know. -/
def unknownProvRequest : Request :=
  ⟨"GET", "/admin/provisioners/nope", [("Authorization", ["good"])],
   [(.RouteCtxKey, .routeContext [("provisionerName", "nope")])]⟩

/-- A request with a valid token for the provisioner `acme`. -/
def goodRequest : Request :=
  ⟨"GET", "/admin/provisioners/acme", [("Authorization", ["good"])],
   [(.RouteCtxKey, .routeContext [("provisionerName", "acme")])]⟩

/-- A store of type `*nosql.DB` whose reads fail. -/
def failingStore : AdminDB :=
  ⟨.nosqlDB, fun _ _ => .error (.foreign "record unreadable")⟩

/-- A handler over the store whose reads fail. -/
def failingStoreHandler : Handler := ⟨authOn, failingStore⟩

/-- The request for the provisioner `acme` after authentication: its
context carries the identity. -/
def authenticatedRequest : Request :=
  goodRequest.WithContext (NewContextWithAdmin goodRequest.ctx adminAlice)

/-! ## Helper lemmas -/

/-- The type assertion succeeds exactly on a store of type `*nosql.DB`. -/
theorem isNosqlDB_iff (db : AdminDB) : isNosqlDB db = true ↔ db.dynType = DBType.nosqlDB := by
  simp [isNosqlDB]

/-- The format of the name-lookup failure expands to the fixed text followed by
the name. -/
theorem Sprintf_loading (n : String) :
    Sprintf "error loading provisioner %s" [n] = "error loading provisioner " ++ n := by
  apply String.ext
  show sprintfChars "error loading provisioner %s".data [n] =
    ("error loading provisioner " ++ n).data
  rw [String.data_append]
  have hfmt : "error loading provisioner %s".data =
      "error loading provisioner ".data ++ ['%', 's'] := by decide
  rw [hfmt]
  simp [sprintfChars]

/-- The format of the store-read failure expands to the fixed text followed by
the name. -/
theorem Sprintf_retrieving (n : String) :
    Sprintf "error retrieving provisioner %s" [n] = "error retrieving provisioner " ++ n := by
  apply String.ext
  show sprintfChars "error retrieving provisioner %s".data [n] =
    ("error retrieving provisioner " ++ n).data
  rw [String.data_append]
  have hfmt : "error retrieving provisioner %s".data =
      "error retrieving provisioner ".data ++ ['%', 's'] := by decide
  rw [hfmt]
  simp [sprintfChars]

/-- An absent header reads as the empty string. -/
theorem HeaderGet_absent (hd : Header) (key : String) (h : hd.lookup key = none) :
    HeaderGet hd key = "" := by
  simp [HeaderGet, h]

/-- A header whose first value is the empty string reads as the empty string. -/
theorem HeaderGet_empty (hd : Header) (key : String) (vs : List String)
    (h : hd.lookup key = some ("" :: vs)) : HeaderGet hd key = "" := by
  simp [HeaderGet, h]

/-! ## The capability gate -/

/-- C1, as stated, fails: on a store of type `*nosql.DB`, the one that passes the
first backend check, a route with `supportedInStandalone = false` is not
admitted; the terminal handler is not reached and an error is rendered. -/
theorem checkAction_linkedOnly_admitted_fails :
    isNosqlDB nosqlHandler.adminDB = true ∧
    servedRequests (checkAction nosqlHandler terminal false goodRequest) = [] ∧
    rendered (checkAction nosqlHandler terminal false goodRequest) =
      [GoError.adminError ProblemType.ErrorNotImplementedType
        "operation not supported in standalone mode"] ∧
    ¬ (servedRequests (checkAction nosqlHandler terminal false goodRequest) = [goodRequest] ∧
       rendered (checkAction nosqlHandler terminal false goodRequest) = []) := by
  decide

/-- C1, amended: for every request, when the store is of type `*nosql.DB` and
`supportedInStandalone` is false, the request is rejected: next is not invoked
and exactly one error, of category NotImplemented, is rendered. -/
theorem checkAction_linkedOnly_rejected (h : Handler) (next : HandlerFunc) (r : Request)
    (hdb : h.adminDB.dynType = DBType.nosqlDB) :
    servedRequests (checkAction h terminal false r) = [] ∧
    ∃ e, checkAction h next false r = [Event.renderError e] ∧
      e.category = some ProblemType.ErrorNotImplementedType := by
  have hn : isNosqlDB h.adminDB = true := (isNosqlDB_iff _).2 hdb
  refine ⟨by simp [checkAction, hn, servedRequests], ?_⟩
  exact ⟨NewError ProblemType.ErrorNotImplementedType
    "operation not supported in standalone mode", by simp [checkAction, hn], rfl⟩

/-- Witness of C1 amended at the nosql handler. -/
theorem checkAction_linkedOnly_rejected_witness :
    nosqlHandler.adminDB.dynType = DBType.nosqlDB ∧
    (servedRequests (checkAction nosqlHandler terminal false goodRequest) = [] ∧
    ∃ e, checkAction nosqlHandler terminal false goodRequest = [Event.renderError e] ∧
      e.category = some ProblemType.ErrorNotImplementedType) :=
  ⟨rfl, checkAction_linkedOnly_rejected nosqlHandler terminal goodRequest rfl⟩

/-- C2: for every request and both values of the route flag, when the store is
not of type `*nosql.DB` the guard renders exactly the NotImplemented error
"operation not supported" and never invokes next. -/
theorem checkAction_unsupported_backend (h : Handler) (next : HandlerFunc) (r : Request)
    (supportedInStandalone : Bool) (hdb : h.adminDB.dynType ≠ DBType.nosqlDB) :
    checkAction h next supportedInStandalone r =
      [Event.renderError
        (GoError.adminError ProblemType.ErrorNotImplementedType "operation not supported")] ∧
    servedRequests (checkAction h terminal supportedInStandalone r) = [] := by
  have hn : isNosqlDB h.adminDB = false := by
    cases hb : isNosqlDB h.adminDB
    · rfl
    · exact absurd ((isNosqlDB_iff _).1 hb) hdb
  constructor <;> simp [checkAction, hn, NewError, servedRequests]

/-- Witness of C2 at a store of another type, the route flag set. -/
theorem checkAction_unsupported_backend_witness :
    mockHandler.adminDB.dynType ≠ DBType.nosqlDB ∧
    (checkAction mockHandler terminal true goodRequest =
      [Event.renderError
        (GoError.adminError ProblemType.ErrorNotImplementedType "operation not supported")] ∧
    servedRequests (checkAction mockHandler terminal true goodRequest) = []) :=
  ⟨by decide, checkAction_unsupported_backend mockHandler terminal goodRequest true (by decide)⟩

/-- C3: for every request, when the store is of type `*nosql.DB` and
`supportedInStandalone` is true, the guard does exactly what next does on the
same request: next is invoked once with the unmodified request, so the identity
and the provisioner of its context are those of the incoming request, and no
error is rendered. -/
theorem checkAction_standalone_admitted (h : Handler) (next : HandlerFunc) (r : Request)
    (hdb : h.adminDB.dynType = DBType.nosqlDB) :
    checkAction h next true r = next r ∧
    checkAction h terminal true r = [Event.served r] ∧
    servedRequests (checkAction h terminal true r) = [r] ∧
    rendered (checkAction h terminal true r) = [] := by
  have hn : isNosqlDB h.adminDB = true := (isNosqlDB_iff _).2 hdb
  refine ⟨?_, ?_, ?_, ?_⟩ <;> simp [checkAction, hn, terminal, servedRequests, rendered]

/-- Witness of C3 at the nosql handler. -/
theorem checkAction_standalone_admitted_witness :
    nosqlHandler.adminDB.dynType = DBType.nosqlDB ∧
    (checkAction nosqlHandler terminal true goodRequest = terminal goodRequest ∧
    checkAction nosqlHandler terminal true goodRequest = [Event.served goodRequest] ∧
    servedRequests (checkAction nosqlHandler terminal true goodRequest) = [goodRequest] ∧
    rendered (checkAction nosqlHandler terminal true goodRequest) = []) :=
  ⟨rfl, checkAction_standalone_admitted nosqlHandler terminal goodRequest rfl⟩

/-- C4: for every request, when `supportedInStandalone` is false and the store
is of type `*nosql.DB`, the guard renders exactly the NotImplemented error
"operation not supported in standalone mode" and never invokes next. -/
theorem checkAction_standalone_mode_rejected (h : Handler) (next : HandlerFunc) (r : Request)
    (hdb : h.adminDB.dynType = DBType.nosqlDB) :
    checkAction h next false r =
      [Event.renderError (GoError.adminError ProblemType.ErrorNotImplementedType
        "operation not supported in standalone mode")] ∧
    servedRequests (checkAction h terminal false r) = [] := by
  have hn : isNosqlDB h.adminDB = true := (isNosqlDB_iff _).2 hdb
  constructor <;> simp [checkAction, hn, NewError, servedRequests]

/-- Witness of C4 at the nosql handler. -/
theorem checkAction_standalone_mode_rejected_witness :
    nosqlHandler.adminDB.dynType = DBType.nosqlDB ∧
    (checkAction nosqlHandler terminal false goodRequest =
      [Event.renderError (GoError.adminError ProblemType.ErrorNotImplementedType
        "operation not supported in standalone mode")] ∧
    servedRequests (checkAction nosqlHandler terminal false goodRequest) = []) :=
  ⟨rfl, checkAction_standalone_mode_rejected nosqlHandler terminal goodRequest rfl⟩

/-! ## The authentication guard -/

/-- C5: for every request whose Authorization header is absent or is the empty
string, the guard produces exactly one event, the Unauthorized error "missing
authorization header token": `AuthorizeAdminToken` is not invoked, no context is
built and next is never invoked. The outcome is the same list in both cases. -/
theorem extractAuthorizeTokenAdmin_missing_token (h : Handler) (next : HandlerFunc)
    (r : Request)
    (hhdr : r.Header.lookup "Authorization" = none ∨
      ∃ vs, r.Header.lookup "Authorization" = some ("" :: vs)) :
    extractAuthorizeTokenAdmin h next r =
      [Event.renderError (GoError.adminError ProblemType.ErrorUnauthorizedType
        "missing authorization header token")] ∧
    authorizeCalls (extractAuthorizeTokenAdmin h next r) = [] ∧
    servedRequests (extractAuthorizeTokenAdmin h terminal r) = [] := by
  have htok : HeaderGet r.Header "Authorization" = "" := by
    rcases hhdr with hnone | ⟨vs, hsome⟩
    · exact HeaderGet_absent _ _ hnone
    · exact HeaderGet_empty _ _ vs hsome
  refine ⟨?_, ?_, ?_⟩ <;>
    simp [extractAuthorizeTokenAdmin, htok, NewError, authorizeCalls, servedRequests]

/-- Witness of C5: a request without the header and a request whose header is
the empty string, both with otherwise valid data. -/
theorem extractAuthorizeTokenAdmin_missing_token_witness :
    (extractAuthorizeTokenAdmin nosqlHandler terminal ⟨"GET", "/admin/admins", [], []⟩ =
      [Event.renderError (GoError.adminError ProblemType.ErrorUnauthorizedType
        "missing authorization header token")] ∧
    authorizeCalls
      (extractAuthorizeTokenAdmin nosqlHandler terminal ⟨"GET", "/admin/admins", [], []⟩) = [] ∧
    servedRequests
      (extractAuthorizeTokenAdmin nosqlHandler terminal ⟨"GET", "/admin/admins", [], []⟩) = []) ∧
    (extractAuthorizeTokenAdmin nosqlHandler terminal
        ⟨"GET", "/admin/admins", [("Authorization", [""])], []⟩ =
      [Event.renderError (GoError.adminError ProblemType.ErrorUnauthorizedType
        "missing authorization header token")] ∧
    authorizeCalls (extractAuthorizeTokenAdmin nosqlHandler terminal
        ⟨"GET", "/admin/admins", [("Authorization", [""])], []⟩) = [] ∧
    servedRequests (extractAuthorizeTokenAdmin nosqlHandler terminal
        ⟨"GET", "/admin/admins", [("Authorization", [""])], []⟩) = []) :=
  ⟨extractAuthorizeTokenAdmin_missing_token nosqlHandler terminal
      ⟨"GET", "/admin/admins", [], []⟩ (Or.inl rfl),
   extractAuthorizeTokenAdmin_missing_token nosqlHandler terminal
      ⟨"GET", "/admin/admins", [("Authorization", [""])], []⟩ (Or.inr ⟨[], by decide⟩)⟩

/-- C6: for every request with a non-empty Authorization header, when
`AuthorizeAdminToken` returns the error `e`, the guard calls it once, renders
exactly `e`, builds no context and never invokes next. -/
theorem extractAuthorizeTokenAdmin_error_verbatim (h : Handler) (next : HandlerFunc)
    (r : Request) (e : GoError)
    (htok : HeaderGet r.Header "Authorization" ≠ "")
    (herr : h.auth.AuthorizeAdminToken r (HeaderGet r.Header "Authorization") = Except.error e) :
    extractAuthorizeTokenAdmin h next r =
      [Event.callAuthorizeAdminToken r (HeaderGet r.Header "Authorization"),
       Event.renderError e] ∧
    rendered (extractAuthorizeTokenAdmin h next r) = [e] ∧
    servedRequests (extractAuthorizeTokenAdmin h terminal r) = [] := by
  refine ⟨?_, ?_, ?_⟩ <;>
    simp [extractAuthorizeTokenAdmin, htok, herr, rendered, servedRequests]

/-- Witness of C6: the authority rejects the token `bad` with its own
Unauthorized error. -/
theorem extractAuthorizeTokenAdmin_error_verbatim_witness :
    extractAuthorizeTokenAdmin nosqlHandler terminal
        ⟨"GET", "/admin/admins", [("Authorization", ["bad"])], []⟩ =
      [Event.callAuthorizeAdminToken
          ⟨"GET", "/admin/admins", [("Authorization", ["bad"])], []⟩ "bad",
       Event.renderError (GoError.adminError ProblemType.ErrorUnauthorizedType
          "token rejected")] ∧
    rendered (extractAuthorizeTokenAdmin nosqlHandler terminal
        ⟨"GET", "/admin/admins", [("Authorization", ["bad"])], []⟩) =
      [GoError.adminError ProblemType.ErrorUnauthorizedType "token rejected"] ∧
    servedRequests (extractAuthorizeTokenAdmin nosqlHandler terminal
        ⟨"GET", "/admin/admins", [("Authorization", ["bad"])], []⟩) = [] :=
  extractAuthorizeTokenAdmin_error_verbatim nosqlHandler terminal
    ⟨"GET", "/admin/admins", [("Authorization", ["bad"])], []⟩
    (GoError.adminError ProblemType.ErrorUnauthorizedType "token rejected")
    (by decide) rfl

/-- C7: for every request whose Authorization header value `t` is not empty,
`AuthorizeAdminToken` is invoked exactly once, with the request and the token
`t`; when it returns the identity `a`, the guard then does exactly what next does
on the request with the enriched context, from which `a` is read back, and
renders no error. -/
theorem extractAuthorizeTokenAdmin_success (h : Handler) (next : HandlerFunc)
    (r : Request) (t : String)
    (ht : HeaderGet r.Header "Authorization" = t) (hne : t ≠ "") :
    authorizeCalls (extractAuthorizeTokenAdmin h terminal r) = [(r, t)] ∧
    ∀ a, h.auth.AuthorizeAdminToken r t = Except.ok a →
      extractAuthorizeTokenAdmin h next r =
        Event.callAuthorizeAdminToken r t ::
          next (r.WithContext (NewContextWithAdmin r.ctx a)) ∧
      AdminFromContext (r.WithContext (NewContextWithAdmin r.ctx a)).ctx = some a ∧
      servedRequests (extractAuthorizeTokenAdmin h terminal r) =
        [r.WithContext (NewContextWithAdmin r.ctx a)] ∧
      rendered (extractAuthorizeTokenAdmin h terminal r) = [] := by
  subst ht
  constructor
  · cases hres : h.auth.AuthorizeAdminToken r (HeaderGet r.Header "Authorization") <;>
      simp [extractAuthorizeTokenAdmin, hne, hres, authorizeCalls, terminal]
  · intro a ha
    refine ⟨?_, ?_, ?_, ?_⟩
    · simp [extractAuthorizeTokenAdmin, hne, ha]
    · simp [AdminFromContext, Request.WithContext, NewContextWithAdmin, WithValue, Value,
        List.lookup]
    · simp [extractAuthorizeTokenAdmin, hne, ha, servedRequests, terminal]
    · simp [extractAuthorizeTokenAdmin, hne, ha, rendered, terminal]

/-- Witness of C7 at the request carrying the token `good`. -/
theorem extractAuthorizeTokenAdmin_success_witness :
    authorizeCalls (extractAuthorizeTokenAdmin nosqlHandler terminal goodRequest) =
      [(goodRequest, "good")] ∧
    servedRequests (extractAuthorizeTokenAdmin nosqlHandler terminal goodRequest) =
      [goodRequest.WithContext (NewContextWithAdmin goodRequest.ctx adminAlice)] ∧
    AdminFromContext
      (goodRequest.WithContext (NewContextWithAdmin goodRequest.ctx adminAlice)).ctx =
      some adminAlice :=
  have hw := extractAuthorizeTokenAdmin_success nosqlHandler terminal goodRequest "good"
    (by decide) (by decide)
  ⟨hw.1, (hw.2 adminAlice rfl).2.2.1, (hw.2 adminAlice rfl).2.1⟩

/-! ## The feature gate -/

/-- C8: for every request, when `IsAdminAPIEnabled()` is false the guard renders
exactly the NotImplemented error "administration API not enabled" and never
invokes next, whatever next is; with the authentication, resource resolution
and capability guards composed inside it, `AuthorizeAdminToken`,
`LoadProvisionerByName` and `GetProvisioner` are not called and the terminal
handler is not reached. -/
theorem requireAPIEnabled_disabled (h : Handler) (next : HandlerFunc) (r : Request)
    (supportedInStandalone : Bool) (hoff : h.auth.IsAdminAPIEnabled = false) :
    requireAPIEnabled h next r =
      [Event.callIsAdminAPIEnabled,
       Event.renderError (GoError.adminError ProblemType.ErrorNotImplementedType
        "administration API not enabled")] ∧
    authorizeCalls (admissionPipeline h supportedInStandalone terminal r) = [] ∧
    loadCalls (admissionPipeline h supportedInStandalone terminal r) = [] ∧
    getCalls (admissionPipeline h supportedInStandalone terminal r) = [] ∧
    servedRequests (admissionPipeline h supportedInStandalone terminal r) = [] := by
  refine ⟨?_, ?_, ?_, ?_, ?_⟩ <;>
    simp [admissionPipeline, requireAPIEnabled, hoff, NewError, authorizeCalls, loadCalls,
      getCalls, servedRequests]

/-- Witness of C8: the API is disabled and the request is otherwise valid. -/
theorem requireAPIEnabled_disabled_witness :
    disabledHandler.auth.IsAdminAPIEnabled = false ∧
    (requireAPIEnabled disabledHandler terminal goodRequest =
      [Event.callIsAdminAPIEnabled,
       Event.renderError (GoError.adminError ProblemType.ErrorNotImplementedType
        "administration API not enabled")] ∧
    authorizeCalls (admissionPipeline disabledHandler true terminal goodRequest) = [] ∧
    loadCalls (admissionPipeline disabledHandler true terminal goodRequest) = [] ∧
    getCalls (admissionPipeline disabledHandler true terminal goodRequest) = [] ∧
    servedRequests (admissionPipeline disabledHandler true terminal goodRequest) = []) :=
  ⟨rfl, requireAPIEnabled_disabled disabledHandler terminal goodRequest true rfl⟩

/-- C9: for every request, when `IsAdminAPIEnabled()` is true the guard, after
reading the flag, does exactly what next does on the incoming request: next is
invoked once with the identical request and the guard renders nothing. -/
theorem requireAPIEnabled_enabled (h : Handler) (next : HandlerFunc) (r : Request)
    (hon : h.auth.IsAdminAPIEnabled = true) :
    requireAPIEnabled h next r = Event.callIsAdminAPIEnabled :: next r ∧
    requireAPIEnabled h terminal r = [Event.callIsAdminAPIEnabled, Event.served r] ∧
    servedRequests (requireAPIEnabled h terminal r) = [r] ∧
    rendered (requireAPIEnabled h terminal r) = [] := by
  refine ⟨?_, ?_, ?_, ?_⟩ <;>
    simp [requireAPIEnabled, hon, terminal, servedRequests, rendered]

/-- Witness of C9: the API is enabled. -/
theorem requireAPIEnabled_enabled_witness :
    nosqlHandler.auth.IsAdminAPIEnabled = true ∧
    (requireAPIEnabled nosqlHandler terminal goodRequest =
      Event.callIsAdminAPIEnabled :: terminal goodRequest ∧
    requireAPIEnabled nosqlHandler terminal goodRequest =
      [Event.callIsAdminAPIEnabled, Event.served goodRequest] ∧
    servedRequests (requireAPIEnabled nosqlHandler terminal goodRequest) = [goodRequest] ∧
    rendered (requireAPIEnabled nosqlHandler terminal goodRequest) = []) :=
  ⟨rfl, requireAPIEnabled_enabled nosqlHandler terminal goodRequest rfl⟩

/-! ## The resource resolution guard -/

/-- C10: for every request with path parameter `provisionerName = n`, when
`LoadProvisionerByName(n)` returns the error `e`, the guard calls the lookup
once with `n`, then renders exactly one error: `e` wrapped in the internal
server error category with message "error loading provisioner " followed by
`n`. `GetProvisioner` is not invoked, no context is built and next is never
invoked. -/
theorem loadProvisionerByName_lookup_error (h : Handler) (next : HandlerFunc) (r : Request)
    (n : String) (e : GoError)
    (hn : URLParam r "provisionerName" = n)
    (herr : h.auth.LoadProvisionerByName n = Except.error e) :
    loadProvisionerByName h next r =
      [Event.callLoadProvisionerByName n,
       Event.renderError (GoError.wrapped ProblemType.ErrorServerInternalType
        ("error loading provisioner " ++ n) e)] ∧
    getCalls (loadProvisionerByName h next r) = [] ∧
    servedRequests (loadProvisionerByName h terminal r) = [] := by
  subst hn
  refine ⟨?_, ?_, ?_⟩ <;>
    simp [loadProvisionerByName, herr, WrapErrorISE, Sprintf_loading, getCalls, servedRequests]

/-- Witness of C10: the authority does not know the provisioner `nope`. -/
theorem loadProvisionerByName_lookup_error_witness :
    loadProvisionerByName nosqlHandler terminal unknownProvRequest =
      [Event.callLoadProvisionerByName "nope",
       Event.renderError (GoError.wrapped ProblemType.ErrorServerInternalType
        ("error loading provisioner " ++ "nope") (GoError.foreign "provisioner not found"))] ∧
    getCalls (loadProvisionerByName nosqlHandler terminal unknownProvRequest) = [] ∧
    servedRequests (loadProvisionerByName nosqlHandler terminal unknownProvRequest) = [] :=
  loadProvisionerByName_lookup_error nosqlHandler terminal unknownProvRequest "nope"
    (GoError.foreign "provisioner not found") (by decide) rfl

/-- C11: for every request with path parameter `provisionerName = n`, when
`LoadProvisionerByName(n)` returns a provisioner `p` and `GetProvisioner` then
fails with `e`, the guard renders exactly one error: `e` wrapped in the internal
server error category with message "error retrieving provisioner " followed by
the name `n`. The identifier of `p` occurs only in the call to the store, not in
the error, which is therefore the same for every identifier; next is never
invoked. -/
theorem loadProvisionerByName_store_error (h : Handler) (next : HandlerFunc) (r : Request)
    (n : String) (p : ProvisionerInterface) (e : GoError)
    (hn : URLParam r "provisionerName" = n)
    (hload : h.auth.LoadProvisionerByName n = Except.ok p)
    (hget : h.adminDB.GetProvisioner r.ctx p.GetID = Except.error e) :
    loadProvisionerByName h next r =
      [Event.callLoadProvisionerByName n,
       Event.callGetProvisioner r.ctx p.GetID,
       Event.renderError (GoError.wrapped ProblemType.ErrorServerInternalType
        ("error retrieving provisioner " ++ n) e)] ∧
    rendered (loadProvisionerByName h next r) =
      [GoError.wrapped ProblemType.ErrorServerInternalType
        ("error retrieving provisioner " ++ n) e] ∧
    servedRequests (loadProvisionerByName h terminal r) = [] := by
  subst hn
  refine ⟨?_, ?_, ?_⟩ <;>
    simp [loadProvisionerByName, hload, hget, WrapErrorISE, Sprintf_retrieving, rendered,
      servedRequests]

/-- Witness of C11: the authority knows `acme` under the identifier `prov-1` and
the store read fails. -/
theorem loadProvisionerByName_store_error_witness :
    loadProvisionerByName failingStoreHandler terminal goodRequest =
      [Event.callLoadProvisionerByName "acme",
       Event.callGetProvisioner goodRequest.ctx "prov-1",
       Event.renderError (GoError.wrapped ProblemType.ErrorServerInternalType
        ("error retrieving provisioner " ++ "acme") (GoError.foreign "record unreadable"))] ∧
    rendered (loadProvisionerByName failingStoreHandler terminal goodRequest) =
      [GoError.wrapped ProblemType.ErrorServerInternalType
        ("error retrieving provisioner " ++ "acme") (GoError.foreign "record unreadable")] ∧
    servedRequests (loadProvisionerByName failingStoreHandler terminal goodRequest) = [] :=
  loadProvisionerByName_store_error failingStoreHandler terminal goodRequest "acme"
    ⟨"prov-1", "acme"⟩ (GoError.foreign "record unreadable") (by decide) rfl rfl

/-- C12: for every request with path parameter `provisionerName = n`, when
`LoadProvisionerByName(n)` returns `p` and `GetProvisioner` returns the record
`prov`, the store was read exactly once, with the context of the request and the
identifier `p.GetID()`; the guard then does exactly what next does on the
request whose context has the record attached, from which the record is read
back, and renders no error. -/
theorem loadProvisionerByName_success (h : Handler) (next : HandlerFunc) (r : Request)
    (n : String) (p : ProvisionerInterface) (prov : Provisioner)
    (hn : URLParam r "provisionerName" = n)
    (hload : h.auth.LoadProvisionerByName n = Except.ok p)
    (hget : h.adminDB.GetProvisioner r.ctx p.GetID = Except.ok prov) :
    loadProvisionerByName h next r =
      Event.callLoadProvisionerByName n :: Event.callGetProvisioner r.ctx p.GetID ::
        next (r.WithContext (NewContextWithProvisioner r.ctx prov)) ∧
    loadCalls (loadProvisionerByName h terminal r) = [n] ∧
    getCalls (loadProvisionerByName h terminal r) = [(r.ctx, p.GetID)] ∧
    servedRequests (loadProvisionerByName h terminal r) =
      [r.WithContext (NewContextWithProvisioner r.ctx prov)] ∧
    ProvisionerFromContext (r.WithContext (NewContextWithProvisioner r.ctx prov)).ctx =
      some prov ∧
    rendered (loadProvisionerByName h terminal r) = [] := by
  subst hn
  refine ⟨?_, ?_, ?_, ?_, ?_, ?_⟩
  · simp [loadProvisionerByName, hload, hget]
  · simp [loadProvisionerByName, hload, hget, loadCalls, terminal]
  · simp [loadProvisionerByName, hload, hget, getCalls, terminal]
  · simp [loadProvisionerByName, hload, hget, servedRequests, terminal]
  · simp [ProvisionerFromContext, Request.WithContext, NewContextWithProvisioner, WithValue,
      Value, List.lookup]
  · simp [loadProvisionerByName, hload, hget, rendered, terminal]

/-- Witness of C12: the provisioner `acme` is known and its record is in the
store. -/
theorem loadProvisionerByName_success_witness :
    loadProvisionerByName nosqlHandler terminal goodRequest =
      Event.callLoadProvisionerByName "acme" ::
        Event.callGetProvisioner goodRequest.ctx "prov-1" ::
        terminal (goodRequest.WithContext
          (NewContextWithProvisioner goodRequest.ctx provRecord)) ∧
    getCalls (loadProvisionerByName nosqlHandler terminal goodRequest) =
      [(goodRequest.ctx, "prov-1")] ∧
    ProvisionerFromContext (goodRequest.WithContext
      (NewContextWithProvisioner goodRequest.ctx provRecord)).ctx = some provRecord :=
  have hw := loadProvisionerByName_success nosqlHandler terminal goodRequest "acme"
    ⟨"prov-1", "acme"⟩ provRecord (by decide) rfl rfl
  ⟨hw.1, hw.2.2.1, hw.2.2.2.2.1⟩

/-! ## Purity of the capability gate -/

/-- C13: for any two requests, and any two handlers whose stores have the same
concrete type, under the same route flag `checkAction` makes the same decision:
it admits one request exactly when it admits the other, rejects one exactly when
it rejects the other, and renders the same errors, category and message
included. -/
theorem checkAction_decision_pure (h1 h2 : Handler) (r1 r2 : Request)
    (supportedInStandalone : Bool)
    (htype : h1.adminDB.dynType = h2.adminDB.dynType) :
    (checkAction h1 terminal supportedInStandalone r1 = [Event.served r1] ↔
      checkAction h2 terminal supportedInStandalone r2 = [Event.served r2]) ∧
    (servedRequests (checkAction h1 terminal supportedInStandalone r1) = [] ↔
      servedRequests (checkAction h2 terminal supportedInStandalone r2) = []) ∧
    rendered (checkAction h1 terminal supportedInStandalone r1) =
      rendered (checkAction h2 terminal supportedInStandalone r2) := by
  have hsame : isNosqlDB h1.adminDB = isNosqlDB h2.adminDB := by
    simp [isNosqlDB, htype]
  cases hdb : isNosqlDB h2.adminDB <;> cases supportedInStandalone <;>
    simp [checkAction, hsame, hdb, terminal, servedRequests, rendered]

/-- Witness of C13: two handlers over stores of type `*nosql.DB`, two requests
that differ in path and route parameters. -/
theorem checkAction_decision_pure_witness :
    nosqlHandler.adminDB.dynType = failingStoreHandler.adminDB.dynType ∧
    ((checkAction nosqlHandler terminal true goodRequest = [Event.served goodRequest] ↔
      checkAction failingStoreHandler terminal true unknownProvRequest =
        [Event.served unknownProvRequest]) ∧
    (servedRequests (checkAction nosqlHandler terminal true goodRequest) = [] ↔
      servedRequests (checkAction failingStoreHandler terminal true unknownProvRequest) = []) ∧
    rendered (checkAction nosqlHandler terminal true goodRequest) =
      rendered (checkAction failingStoreHandler terminal true unknownProvRequest)) :=
  ⟨rfl, checkAction_decision_pure nosqlHandler failingStoreHandler goodRequest
    unknownProvRequest true rfl⟩

/-! ## Frame of the context -/

/-- C14: when the context of the request carries the identity `a` and
`loadProvisionerByName` succeeds, the request it hands to next still yields `a`,
and every value under a key other than the provisioner key is unchanged; when
`extractAuthorizeTokenAdmin` succeeds, the request it hands to next has every
value under a key other than the identity key unchanged, the route parameters
included. -/
theorem guards_preserve_context (h : Handler) (r : Request) :
    (∀ a p prov, AdminFromContext r.ctx = some a →
      h.auth.LoadProvisionerByName (URLParam r "provisionerName") = Except.ok p →
      h.adminDB.GetProvisioner r.ctx p.GetID = Except.ok prov →
      servedRequests (loadProvisionerByName h terminal r) =
        [r.WithContext (NewContextWithProvisioner r.ctx prov)] ∧
      AdminFromContext (r.WithContext (NewContextWithProvisioner r.ctx prov)).ctx = some a ∧
      ∀ k, k ≠ CtxKey.provisionerContextKey →
        Value (r.WithContext (NewContextWithProvisioner r.ctx prov)).ctx k = Value r.ctx k) ∧
    (∀ a, HeaderGet r.Header "Authorization" ≠ "" →
      h.auth.AuthorizeAdminToken r (HeaderGet r.Header "Authorization") = Except.ok a →
      servedRequests (extractAuthorizeTokenAdmin h terminal r) =
        [r.WithContext (NewContextWithAdmin r.ctx a)] ∧
      (∀ k, k ≠ CtxKey.adminContextKey →
        Value (r.WithContext (NewContextWithAdmin r.ctx a)).ctx k = Value r.ctx k) ∧
      ∀ key, URLParam (r.WithContext (NewContextWithAdmin r.ctx a)) key = URLParam r key) := by
  constructor
  · intro a p prov ha hload hget
    have hframe : ∀ k, k ≠ CtxKey.provisionerContextKey →
        Value (r.WithContext (NewContextWithProvisioner r.ctx prov)).ctx k = Value r.ctx k := by
      intro k hk
      have hk2 : (k == CtxKey.provisionerContextKey) = false := by simpa using hk
      simp [Request.WithContext, NewContextWithProvisioner, WithValue, Value, List.lookup, hk2]
    refine ⟨?_, ?_, hframe⟩
    · simp [loadProvisionerByName, hload, hget, servedRequests, terminal]
    · have hv := hframe CtxKey.adminContextKey (by decide)
      unfold AdminFromContext at ha ⊢
      rw [hv]
      exact ha
  · intro a htok hauth
    have hframe : ∀ k, k ≠ CtxKey.adminContextKey →
        Value (r.WithContext (NewContextWithAdmin r.ctx a)).ctx k = Value r.ctx k := by
      intro k hk
      have hk2 : (k == CtxKey.adminContextKey) = false := by simpa using hk
      simp [Request.WithContext, NewContextWithAdmin, WithValue, Value, List.lookup, hk2]
    refine ⟨?_, hframe, ?_⟩
    · simp [extractAuthorizeTokenAdmin, htok, hauth, servedRequests, terminal]
    · intro key
      have hv := hframe CtxKey.RouteCtxKey (by decide)
      unfold URLParam
      rw [hv]

/-- Witness of C14: the authenticated request for `acme` keeps the identity
through `loadProvisionerByName`. -/
theorem guards_preserve_context_witness :
    AdminFromContext authenticatedRequest.ctx = some adminAlice ∧
    servedRequests (loadProvisionerByName nosqlHandler terminal authenticatedRequest) =
      [authenticatedRequest.WithContext
        (NewContextWithProvisioner authenticatedRequest.ctx provRecord)] ∧
    AdminFromContext (authenticatedRequest.WithContext
      (NewContextWithProvisioner authenticatedRequest.ctx provRecord)).ctx = some adminAlice ∧
    servedRequests (extractAuthorizeTokenAdmin nosqlHandler terminal goodRequest) =
      [authenticatedRequest] :=
  have hw := guards_preserve_context nosqlHandler authenticatedRequest
  have hl := hw.1 adminAlice ⟨"prov-1", "acme"⟩ provRecord (by decide) rfl rfl
  have he := (guards_preserve_context nosqlHandler goodRequest).2 adminAlice
    (by decide) rfl
  ⟨by decide, hl.1, hl.2.1, he.1⟩

/-! ## Every guard rejects or continues -/

/-- The feature gate rejects or continues. -/
theorem requireAPIEnabled_rejectsOrContinues (h : Handler) (r : Request) :
    rejectsOrContinues (requireAPIEnabled h) r := by
  refine ⟨[Event.callIsAdminAPIEnabled], rfl, rfl, ?_⟩
  cases hen : h.auth.IsAdminAPIEnabled
  · exact Or.inl ⟨NewError ProblemType.ErrorNotImplementedType "administration API not enabled",
      fun next => by simp [requireAPIEnabled, hen]⟩
  · exact Or.inr ⟨r, fun next => by simp [requireAPIEnabled, hen]⟩

/-- The authentication guard rejects or continues. -/
theorem extractAuthorizeTokenAdmin_rejectsOrContinues (h : Handler) (r : Request) :
    rejectsOrContinues (extractAuthorizeTokenAdmin h) r := by
  by_cases htok : HeaderGet r.Header "Authorization" = ""
  · exact ⟨[], rfl, rfl,
      Or.inl ⟨NewError ProblemType.ErrorUnauthorizedType "missing authorization header token",
        fun next => by simp [extractAuthorizeTokenAdmin, htok]⟩⟩
  · refine ⟨[Event.callAuthorizeAdminToken r (HeaderGet r.Header "Authorization")],
      rfl, rfl, ?_⟩
    cases hres : h.auth.AuthorizeAdminToken r (HeaderGet r.Header "Authorization") with
    | error e =>
      exact Or.inl ⟨e, fun next => by simp [extractAuthorizeTokenAdmin, htok, hres]⟩
    | ok a =>
      exact Or.inr ⟨r.WithContext (NewContextWithAdmin r.ctx a),
        fun next => by simp [extractAuthorizeTokenAdmin, htok, hres]⟩

/-- The resource resolution guard rejects or continues. -/
theorem loadProvisionerByName_rejectsOrContinues (h : Handler) (r : Request) :
    rejectsOrContinues (loadProvisionerByName h) r := by
  cases hload : h.auth.LoadProvisionerByName (URLParam r "provisionerName") with
  | error e =>
    exact ⟨[Event.callLoadProvisionerByName (URLParam r "provisionerName")], rfl, rfl,
      Or.inl ⟨WrapErrorISE e "error loading provisioner %s" [URLParam r "provisionerName"],
        fun next => by simp [loadProvisionerByName, hload]⟩⟩
  | ok p =>
    refine ⟨[Event.callLoadProvisionerByName (URLParam r "provisionerName"),
      Event.callGetProvisioner r.ctx p.GetID], rfl, rfl, ?_⟩
    cases hget : h.adminDB.GetProvisioner r.ctx p.GetID with
    | error e =>
      exact Or.inl
        ⟨WrapErrorISE e "error retrieving provisioner %s" [URLParam r "provisionerName"],
          fun next => by simp [loadProvisionerByName, hload, hget]⟩
    | ok prov =>
      exact Or.inr ⟨r.WithContext (NewContextWithProvisioner r.ctx prov),
        fun next => by simp [loadProvisionerByName, hload, hget]⟩

/-- The capability gate rejects or continues. -/
theorem checkAction_rejectsOrContinues (h : Handler) (r : Request)
    (supportedInStandalone : Bool) :
    rejectsOrContinues (fun next => checkAction h next supportedInStandalone) r := by
  refine ⟨[], rfl, rfl, ?_⟩
  cases hdb : isNosqlDB h.adminDB
  · exact Or.inl ⟨NewError ProblemType.ErrorNotImplementedType "operation not supported",
      fun next => by simp [checkAction, hdb]⟩
  · cases supportedInStandalone
    · exact Or.inl ⟨NewError ProblemType.ErrorNotImplementedType
        "operation not supported in standalone mode",
        fun next => by simp [checkAction, hdb]⟩
    · exact Or.inr ⟨r, fun next => by simp [checkAction, hdb]⟩

/-- A guard that rejects or continues shows, around the recording terminal
handler, either one error and no served request or one served request and no
error, and never both. -/
theorem rejectsOrContinues_terminal (g : HandlerFunc → HandlerFunc) (r : Request)
    (hg : rejectsOrContinues g r) :
    (rejected (g terminal r) ∨ continued (g terminal r)) ∧
    ¬ (rejected (g terminal r) ∧ continued (g terminal r)) := by
  obtain ⟨calls, hren, hserv, hcase⟩ := hg
  have hfr : ∀ l2, rendered (calls ++ l2) = rendered l2 := by
    intro l2
    unfold rendered at hren ⊢
    rw [List.filterMap_append, hren, List.nil_append]
  have hfs : ∀ l2, servedRequests (calls ++ l2) = servedRequests l2 := by
    intro l2
    unfold servedRequests at hserv ⊢
    rw [List.filterMap_append, hserv, List.nil_append]
  constructor
  · rcases hcase with ⟨e, he⟩ | ⟨r2, hr2⟩
    · left
      rw [rejected, he terminal, hfr, hfs]
      exact ⟨rfl, rfl⟩
    · right
      rw [continued, hr2 terminal, hfr, hfs]
      exact ⟨rfl, rfl⟩
  · rintro ⟨⟨hlen, _⟩, ⟨hnil, _⟩⟩
    rw [hnil] at hlen
    exact absurd hlen (by decide)

/-- C15: for each of the four guards, every request, every route flag and every
collaborator outcome, the guard makes its collaborator calls and then either
renders exactly one error without invoking next, whatever next is, or does what
next does on exactly one request and renders nothing itself; around the
recording terminal handler exactly one of the two is observed, never both. -/
theorem guards_reject_or_continue (h : Handler) (r : Request) (supportedInStandalone : Bool) :
    (rejectsOrContinues (requireAPIEnabled h) r ∧
      (rejected (requireAPIEnabled h terminal r) ∨
        continued (requireAPIEnabled h terminal r)) ∧
      ¬ (rejected (requireAPIEnabled h terminal r) ∧
        continued (requireAPIEnabled h terminal r))) ∧
    (rejectsOrContinues (extractAuthorizeTokenAdmin h) r ∧
      (rejected (extractAuthorizeTokenAdmin h terminal r) ∨
        continued (extractAuthorizeTokenAdmin h terminal r)) ∧
      ¬ (rejected (extractAuthorizeTokenAdmin h terminal r) ∧
        continued (extractAuthorizeTokenAdmin h terminal r))) ∧
    (rejectsOrContinues (loadProvisionerByName h) r ∧
      (rejected (loadProvisionerByName h terminal r) ∨
        continued (loadProvisionerByName h terminal r)) ∧
      ¬ (rejected (loadProvisionerByName h terminal r) ∧
        continued (loadProvisionerByName h terminal r))) ∧
    (rejectsOrContinues (fun next => checkAction h next supportedInStandalone) r ∧
      (rejected (checkAction h terminal supportedInStandalone r) ∨
        continued (checkAction h terminal supportedInStandalone r)) ∧
      ¬ (rejected (checkAction h terminal supportedInStandalone r) ∧
        continued (checkAction h terminal supportedInStandalone r))) :=
  ⟨⟨requireAPIEnabled_rejectsOrContinues h r,
      rejectsOrContinues_terminal _ r (requireAPIEnabled_rejectsOrContinues h r)⟩,
   ⟨extractAuthorizeTokenAdmin_rejectsOrContinues h r,
      rejectsOrContinues_terminal _ r (extractAuthorizeTokenAdmin_rejectsOrContinues h r)⟩,
   ⟨loadProvisionerByName_rejectsOrContinues h r,
      rejectsOrContinues_terminal _ r (loadProvisionerByName_rejectsOrContinues h r)⟩,
   ⟨checkAction_rejectsOrContinues h r supportedInStandalone,
      rejectsOrContinues_terminal _ r
        (checkAction_rejectsOrContinues h r supportedInStandalone)⟩⟩

/-! ## The composed pipeline -/

/-- Reading the context of a request whose context was replaced. -/
theorem WithContext_ctx (r : Request) (c : Context) : (r.WithContext c).ctx = c := rfl

/-- Attaching the identity leaves the route parameters readable. -/
theorem URLParam_withAdmin (r : Request) (a : Admin) (key : String) :
    URLParam (r.WithContext (NewContextWithAdmin r.ctx a)) key = URLParam r key := by
  have hk : (CtxKey.RouteCtxKey == CtxKey.adminContextKey) = false := by decide
  simp [URLParam, Request.WithContext, NewContextWithAdmin, WithValue, Value, List.lookup, hk]

/-- C16: for the guards chained in the order feature gate, authentication,
resource resolution, capability gate around the terminal handler, the terminal
handler is reached if and only if the API is enabled, the Authorization header
is not empty, `AuthorizeAdminToken`, `LoadProvisionerByName` and
`GetProvisioner` succeed and `checkAction` admits the enriched request. The
pipeline either reaches the terminal handler once and renders nothing, or
renders exactly one error and does not reach it; the error is that of the first
guard in this order that fails. -/
theorem admissionPipeline_admission (h : Handler) (r : Request)
    (supportedInStandalone : Bool) :
    (servedRequests (admissionPipeline h supportedInStandalone terminal r) ≠ [] ↔
      h.auth.IsAdminAPIEnabled = true ∧
      HeaderGet r.Header "Authorization" ≠ "" ∧
      ∃ a p prov,
        h.auth.AuthorizeAdminToken r (HeaderGet r.Header "Authorization") = Except.ok a ∧
        h.auth.LoadProvisionerByName (URLParam r "provisionerName") = Except.ok p ∧
        h.adminDB.GetProvisioner (NewContextWithAdmin r.ctx a) p.GetID = Except.ok prov ∧
        checkAction h terminal supportedInStandalone
            ((r.WithContext (NewContextWithAdmin r.ctx a)).WithContext
              (NewContextWithProvisioner (NewContextWithAdmin r.ctx a) prov)) =
          [Event.served ((r.WithContext (NewContextWithAdmin r.ctx a)).WithContext
              (NewContextWithProvisioner (NewContextWithAdmin r.ctx a) prov))]) ∧
    (rejected (admissionPipeline h supportedInStandalone terminal r) ∨
      continued (admissionPipeline h supportedInStandalone terminal r)) ∧
    (h.auth.IsAdminAPIEnabled = false →
      rendered (admissionPipeline h supportedInStandalone terminal r) =
        [GoError.adminError ProblemType.ErrorNotImplementedType
          "administration API not enabled"]) ∧
    (h.auth.IsAdminAPIEnabled = true → HeaderGet r.Header "Authorization" = "" →
      rendered (admissionPipeline h supportedInStandalone terminal r) =
        [GoError.adminError ProblemType.ErrorUnauthorizedType
          "missing authorization header token"]) ∧
    (h.auth.IsAdminAPIEnabled = true → HeaderGet r.Header "Authorization" ≠ "" →
      ∀ e, h.auth.AuthorizeAdminToken r (HeaderGet r.Header "Authorization") =
          Except.error e →
        rendered (admissionPipeline h supportedInStandalone terminal r) = [e]) ∧
    (h.auth.IsAdminAPIEnabled = true → HeaderGet r.Header "Authorization" ≠ "" →
      ∀ a e, h.auth.AuthorizeAdminToken r (HeaderGet r.Header "Authorization") =
          Except.ok a →
        h.auth.LoadProvisionerByName (URLParam r "provisionerName") = Except.error e →
        rendered (admissionPipeline h supportedInStandalone terminal r) =
          [GoError.wrapped ProblemType.ErrorServerInternalType
            ("error loading provisioner " ++ URLParam r "provisionerName") e]) ∧
    (h.auth.IsAdminAPIEnabled = true → HeaderGet r.Header "Authorization" ≠ "" →
      ∀ a p e, h.auth.AuthorizeAdminToken r (HeaderGet r.Header "Authorization") =
          Except.ok a →
        h.auth.LoadProvisionerByName (URLParam r "provisionerName") = Except.ok p →
        h.adminDB.GetProvisioner (NewContextWithAdmin r.ctx a) p.GetID = Except.error e →
        rendered (admissionPipeline h supportedInStandalone terminal r) =
          [GoError.wrapped ProblemType.ErrorServerInternalType
            ("error retrieving provisioner " ++ URLParam r "provisionerName") e]) ∧
    (h.auth.IsAdminAPIEnabled = true → HeaderGet r.Header "Authorization" ≠ "" →
      ∀ a p prov, h.auth.AuthorizeAdminToken r (HeaderGet r.Header "Authorization") =
          Except.ok a →
        h.auth.LoadProvisionerByName (URLParam r "provisionerName") = Except.ok p →
        h.adminDB.GetProvisioner (NewContextWithAdmin r.ctx a) p.GetID = Except.ok prov →
        rendered (admissionPipeline h supportedInStandalone terminal r) =
          rendered (checkAction h terminal supportedInStandalone
            ((r.WithContext (NewContextWithAdmin r.ctx a)).WithContext
              (NewContextWithProvisioner (NewContextWithAdmin r.ctx a) prov))) ∧
        servedRequests (admissionPipeline h supportedInStandalone terminal r) =
          servedRequests (checkAction h terminal supportedInStandalone
            ((r.WithContext (NewContextWithAdmin r.ctx a)).WithContext
              (NewContextWithProvisioner (NewContextWithAdmin r.ctx a) prov)))) := by
  cases hen : h.auth.IsAdminAPIEnabled
  · refine ⟨?_, ?_, ?_, ?_, ?_, ?_, ?_, ?_⟩ <;>
      simp [admissionPipeline, requireAPIEnabled, hen, NewError, servedRequests, rendered,
        rejected, continued]
  · by_cases htok : HeaderGet r.Header "Authorization" = ""
    · refine ⟨?_, ?_, ?_, ?_, ?_, ?_, ?_, ?_⟩ <;>
        simp [admissionPipeline, requireAPIEnabled, extractAuthorizeTokenAdmin, hen, htok,
          NewError, servedRequests, rendered, rejected, continued]
    · cases hauth : h.auth.AuthorizeAdminToken r (HeaderGet r.Header "Authorization") with
      | error e =>
        refine ⟨?_, ?_, ?_, ?_, ?_, ?_, ?_, ?_⟩ <;>
          simp [admissionPipeline, requireAPIEnabled, extractAuthorizeTokenAdmin, hen, htok,
            hauth, servedRequests, rendered, rejected, continued]
      | ok a =>
        cases hload : h.auth.LoadProvisionerByName (URLParam r "provisionerName") with
        | error e =>
          refine ⟨?_, ?_, ?_, ?_, ?_, ?_, ?_, ?_⟩ <;>
            simp [admissionPipeline, requireAPIEnabled, extractAuthorizeTokenAdmin,
              loadProvisionerByName, hen, htok, hauth, hload, URLParam_withAdmin,
              WrapErrorISE, Sprintf_loading, servedRequests, rendered, rejected, continued]
        | ok p =>
          cases hget : h.adminDB.GetProvisioner (NewContextWithAdmin r.ctx a) p.GetID with
          | error e =>
            refine ⟨?_, ?_, ?_, ?_, ?_, ?_, ?_, ?_⟩ <;>
              simp [admissionPipeline, requireAPIEnabled, extractAuthorizeTokenAdmin,
                loadProvisionerByName, hen, htok, hauth, hload, hget, URLParam_withAdmin,
                WithContext_ctx, WrapErrorISE, Sprintf_retrieving, servedRequests, rendered,
                rejected, continued] <;>
              intros <;> subst_vars <;> simp_all
          | ok prov =>
            cases hdb : isNosqlDB h.adminDB <;> cases supportedInStandalone <;>
              refine ⟨?_, ?_, ?_, ?_, ?_, ?_, ?_, ?_⟩ <;>
              simp [admissionPipeline, requireAPIEnabled, extractAuthorizeTokenAdmin,
                loadProvisionerByName, checkAction, hen, htok, hauth, hload, hget, hdb,
                URLParam_withAdmin, WithContext_ctx, NewError, servedRequests, rendered,
                rejected, continued, terminal] <;>
              intros <;> subst_vars <;> simp_all

/-- Witness of C16: the valid request for `acme` passes every guard on the
nosql store with the route flag set, and is rejected by the feature gate when
the API is disabled. -/
theorem admissionPipeline_admission_witness :
    servedRequests (admissionPipeline nosqlHandler true terminal goodRequest) ≠ [] ∧
    rendered (admissionPipeline disabledHandler true terminal goodRequest) =
      [GoError.adminError ProblemType.ErrorNotImplementedType
        "administration API not enabled"] :=
  ⟨(admissionPipeline_admission nosqlHandler goodRequest true).1.2
      ⟨rfl, by decide, adminAlice, ⟨"prov-1", "acme"⟩, provRecord, rfl, rfl, rfl, rfl⟩,
   (admissionPipeline_admission disabledHandler goodRequest true).2.2.1 rfl⟩

/-! ## The one admitted combination -/

/-- C17: for every store, route flag and request, `checkAction` reaches next if
and only if the store is of type `*nosql.DB` and `supportedInStandalone` is
true, and then hands it the incoming request; with the flag off nothing is
admitted on any store; and the last statement of the guard, the pass-through
after the second backend check, is never executed: the guard behaves the same
whatever handler stands there. -/
theorem checkAction_admits_iff (h : Handler) (next trailing : HandlerFunc) (r : Request)
    (supportedInStandalone : Bool) :
    (servedRequests (checkAction h terminal supportedInStandalone r) ≠ [] ↔
      h.adminDB.dynType = DBType.nosqlDB ∧ supportedInStandalone = true) ∧
    (checkAction h terminal supportedInStandalone r = [Event.served r] ↔
      h.adminDB.dynType = DBType.nosqlDB ∧ supportedInStandalone = true) ∧
    servedRequests (checkAction h terminal false r) = [] ∧
    checkActionTrailing h next next supportedInStandalone r =
      checkAction h next supportedInStandalone r ∧
    checkActionTrailing h next trailing supportedInStandalone r =
      checkAction h next supportedInStandalone r := by
  have hiff := isNosqlDB_iff h.adminDB
  cases hdb : isNosqlDB h.adminDB <;> cases supportedInStandalone <;>
    simp [hdb] at hiff <;>
    simp [checkAction, checkActionTrailing, hdb, hiff, terminal, servedRequests]

end AdminApi
